import Mathlib

/-!
Verification of the Virtual-Process Topology subsystem of the NEST simulator
(src/nestkernel/vp_manager.cpp) against its natural-language specification.

The file shallowly embeds `VPManager` and the fragments of its collaborators
that the claims need.  Machine integers (`long`, `nest::thread`) are modelled
as `Int` with truncated division/remainder (`Int.tdiv`, `Int.tmod`, the C++
semantics); unsigned quantities whose arithmetic stays non-negative
(`nest::index` ids) are modelled as `Nat`.  All operands of the mapping
functions are non-negative in every stated property, so signed and unsigned
C++ arithmetic agree there.
-/

namespace NestVP

/-- Severity levels of `Network::message` (from SLIInterpreter); only the two
levels used by vp_manager.cpp are modelled. -/
inductive MsgLevel where
  | m_error
  | m_warning
deriving DecidableEq

/-- One diagnostic recorded via `Network::message(level, from, text)`. -/
structure Message where
  level : MsgLevel
  sender : String
  text : String
deriving DecidableEq

/-- Exceptions thrown by `VPManager::set_status`: `KernelException`
(a rejected reconfiguration naming the locking condition) and `BadProperty`
(the invalid-topology request). -/
inductive NestError where
  | kernelException (msg : String)
  | badProperty (msg : String)
deriving DecidableEq

/-- Read-only snapshot of the external collaborators queried by the locking
checks of `VPManager::set_status` (vp_manager.cpp lines 62-83 and 103-122):
`Network::size()`, `models_.size()`, `pristine_models_.size()`,
`ConnectionManager::has_user_prototypes()`,
`ConnectionManager::get_user_set_delay_extrema()`, `Network::get_simulated()`,
`Time::resolution_is_default()`, `Network::model_defaults_modified()`. -/
structure NetworkSnapshot where
  size : Nat
  models_size : Nat
  pristine_models_size : Nat
  has_user_prototypes : Bool
  user_set_delay_extrema : Bool
  simulated : Bool
  resolution_is_default : Bool
  model_defaults_modified : Bool
deriving DecidableEq

/-- Mutable state of `VPManager`: the fields `force_singlethreading_` and
`n_threads_` (vp_manager.h; initialized `false`, `1` by the constructor,
vp_manager.cpp lines 27-31). -/
structure VPState where
  force_singlethreading : Bool
  n_threads : Int
deriving DecidableEq

/-- State produced by the `VPManager` constructor (lines 27-31). -/
def initVPState : VPState :=
  { force_singlethreading := false, n_threads := 1 }

/-- Shallow embedding of `VPManager::set_num_threads` (lines 152-176): of its
effects only the assignment `n_threads_ = n_threads` touches the modelled
state; resizing `nodes_vec_`, OpenMP and `Communicator::set_num_threads` are
external side effects. -/
def set_num_threads (n : Int) (s : VPState) : VPState :=
  { s with n_threads := n }

/-- Shallow embedding of `VPManager::reset` (lines 50-55): clears
`force_singlethreading_` and calls `set_num_threads(1)`. -/
def reset (s : VPState) : VPState :=
  set_num_threads 1 { s with force_singlethreading := false }

/-- Modelled from the spec: `Network::reset` (network.cpp, absent from the
sources) is invoked at the end of the `total_num_virtual_procs` path of
`set_status` (line 141).  Per the spec an accepted change propagates a
topology-reset notification to the collaborators owning per-thread resources;
the notification does not alter the committed topology state itself, so it is
the identity on the modelled `VPManager` state. -/
def networkReset (s : VPState) : VPState := s

/-- Message text of the i-th locking-condition rejection, in the order the
checks appear in `VPManager::set_status` (identical cascade on both key
paths, lines 62-83 and 103-122). -/
def lockMessage : Nat → String
  | 0 => "Nodes exist: Thread/process number cannot be changed."
  | 1 => "Custom neuron models exist: Thread/process number cannot be changed."
  | 2 => "Custom synapse types exist: Thread/process number cannot be changed."
  | 3 => "Delay extrema have been set: Thread/process number cannot be changed."
  | 4 => "The network has been simulated: Thread/process number cannot be changed."
  | 5 => "The resolution has been set: Thread/process number cannot be changed."
  | _ => "Model defaults have been modified: Thread/process number cannot be changed."

/-- The i-th locking condition, in source order: entities exist, custom neuron
models, custom synapse types, customized delay extrema, already simulated,
non-default resolution, modified model defaults. -/
def lockCondition (net : NetworkSnapshot) : Nat → Bool
  | 0 => decide (1 < net.size)
  | 1 => decide (net.pristine_models_size < net.models_size)
  | 2 => net.has_user_prototypes
  | 3 => net.user_set_delay_extrema
  | 4 => net.simulated
  | 5 => !net.resolution_is_default
  | _ => net.model_defaults_modified

/-- The throw cascade of the locking checks (lines 62-83, repeated verbatim at
103-122): the message of the first locking condition that holds, or `none`
when the change is admissible. -/
def firstLockError (net : NetworkSnapshot) : Option String :=
  if 1 < net.size then some (lockMessage 0)
  else if net.pristine_models_size < net.models_size then some (lockMessage 1)
  else if net.has_user_prototypes then some (lockMessage 2)
  else if net.user_set_delay_extrema then some (lockMessage 3)
  else if net.simulated then some (lockMessage 4)
  else if !net.resolution_is_default then some (lockMessage 5)
  else if net.model_defaults_modified then some (lockMessage 6)
  else none

/-- The warning emitted by the degraded clamp (lines 87-89 and 132-134). -/
def noMultithreadingWarning : Message :=
  { level := .m_warning
    sender := "Network::set_status"
    text := "No multithreading available, using single threading" }

/-- Message of the `BadProperty` thrown on an indivisible VP count
(lines 124-127; the two adjacent C++ string literals concatenate). -/
def vpsNotMultipleMsg : String :=
  "Number of virtual processes (threads*processes) must be an integer multiple of the number of processes. Value unchanged."

/-- The status dictionary restricted to the two keys `VPManager::set_status`
reads; `updateValue<long>` succeeds exactly when the key is present. -/
structure StatusDict where
  local_num_threads : Option Int
  total_num_virtual_procs : Option Int
deriving DecidableEq

/-- Result of a `set_status` call: the `VPManager` state when control leaves
the function (mutations made before a throw persist, C++ performs no
rollback), the diagnostics recorded, and the exception thrown, if any. -/
structure SetStatusOutcome where
  state : VPState
  msgs : List Message
  error : Option NestError
deriving DecidableEq

/-- Shallow embedding of `VPManager::set_status` (lines 57-143).
`num_processes` is `Communicator::get_num_processes()`.  The C++ declares the
local variable `long n_threads` once (line 60); when the dictionary lacks the
key `local_num_threads`, `updateValue` leaves it uninitialized, yet line 130
still reads it in the clamp of the `total_num_virtual_procs` path — the
parameter `n_threads0` supplies that indeterminate initial value.  The bare
call `reset()` on line 96 resolves to `VPManager::reset`. -/
def set_status (net : NetworkSnapshot) (num_processes n_threads0 : Int)
    (d : StatusDict) (s0 : VPState) : SetStatusOutcome :=
  let n_threads := d.local_num_threads.getD n_threads0
  let afterThreads : SetStatusOutcome :=
    match d.local_num_threads with
    | none => { state := s0, msgs := [], error := none }
    | some _ =>
      match firstLockError net with
      | some m => { state := s0, msgs := [], error := some (.kernelException m) }
      | none =>
        let step :=
          if 1 < n_threads ∧ s0.force_singlethreading then
            ({ s0 with n_threads := 1 }, [noMultithreadingWarning])
          else (s0, ([] : List Message))
        { state := reset { step.1 with n_threads := n_threads }
          msgs := step.2
          error := none }
  if afterThreads.error.isSome then afterThreads
  else
    match d.total_num_virtual_procs with
    | none => afterThreads
    | some n_vps =>
      match firstLockError net with
      | some m => { afterThreads with error := some (.kernelException m) }
      | none =>
        if n_vps.tmod num_processes ≠ 0 then
          { afterThreads with error := some (.badProperty vpsNotMultipleMsg) }
        else
          let s1 := { afterThreads.state with n_threads := n_vps.tdiv num_processes }
          let step :=
            if 1 < n_threads ∧ s1.force_singlethreading then
              ({ s1 with n_threads := 1 }, [noMultithreadingWarning])
            else (s1, ([] : List Message))
          { state := networkReset (set_num_threads step.1.n_threads step.1)
            msgs := afterThreads.msgs ++ step.2
            error := none }

/-- Modelled from the spec: `VPManager::get_num_virtual_processes` (declared
in vp_manager.h, absent from the sources) is read by `get_status` (line 149);
the spec defines the derived total VP count as thread count times total
process count. -/
def get_num_virtual_processes (num_processes : Int) (s : VPState) : Int :=
  s.n_threads * num_processes

/-- Shallow embedding of `VPManager::get_status` (lines 145-150): the pair
(`local_num_threads`, `total_num_virtual_procs`) written to the dictionary. -/
def get_status (num_processes : Int) (s : VPState) : Int × Int :=
  (s.n_threads, get_num_virtual_processes num_processes s)

/-- Topology parameters read by the partition and mapping functions:
`Network::n_sim_procs_`, `Network::n_rec_procs_` and `VPManager::n_threads_`. -/
structure Topology where
  n_sim_procs : Int
  n_rec_procs : Int
  n_threads : Int
deriving DecidableEq

/-- Shallow embedding of `VPManager::suggest_vp` (lines 187-191); the gid is
unsigned (`nest::index`) and the arithmetic stays non-negative, so `Nat`. -/
def suggest_vp (n_sim_procs n_threads gid : Nat) : Nat :=
  gid % (n_sim_procs * n_threads)

/-- Shallow embedding of `VPManager::suggest_rec_vp` (lines 193-198). -/
def suggest_rec_vp (n_sim_procs n_rec_procs n_threads gid : Nat) : Nat :=
  gid % (n_rec_procs * n_threads) + n_sim_procs * n_threads

/-- Shallow embedding of `VPManager::vp_to_thread` (lines 200-212); `rank`
is `Communicator::get_rank()`. -/
def vp_to_thread (topo : Topology) (rank : Int) (vp : Int) : Int :=
  if topo.n_sim_procs * topo.n_threads ≤ vp then
    (vp + topo.n_sim_procs * (1 - topo.n_threads) - rank).tdiv topo.n_rec_procs
  else
    vp.tdiv topo.n_sim_procs

/-- Shallow embedding of `VPManager::thread_to_vp` (lines 214-228). -/
def thread_to_vp (topo : Topology) (rank : Int) (t : Int) : Int :=
  if topo.n_sim_procs ≤ rank then
    t * topo.n_rec_procs + rank - topo.n_sim_procs + topo.n_sim_procs * topo.n_threads
  else
    t * topo.n_sim_procs + rank

/-- A collaborator snapshot in which none of the seven locking conditions
holds. -/
def pristineNet : NetworkSnapshot :=
  { size := 1
    models_size := 0
    pristine_models_size := 0
    has_user_prototypes := false
    user_set_delay_extrema := false
    simulated := false
    resolution_is_default := true
    model_defaults_modified := false }

/-- A collaborator snapshot in which only the already-simulated locking
condition holds. -/
def simulatedNet : NetworkSnapshot :=
  { pristineNet with simulated := true }

end NestVP

namespace NestVP

/-- C5: for every id and every fixed topology with simProcesses ≥ 1 and
threads ≥ 1, `suggest_vp` returns id mod (simProcesses·threads), hence its
result lies in [0, simProcesses·threads) and it is periodic with period
simProcesses·threads. -/
theorem suggest_vp_mod_range_periodic (sim T gid : Nat)
    (hsim : 1 ≤ sim) (hT : 1 ≤ T) :
    suggest_vp sim T gid = gid % (sim * T) ∧
    suggest_vp sim T gid < sim * T ∧
    suggest_vp sim T (gid + sim * T) = suggest_vp sim T gid := by
  refine ⟨rfl, Nat.mod_lt _ (Nat.mul_pos hsim hT), ?_⟩
  simp [suggest_vp, Nat.add_mod_right]

theorem suggest_vp_mod_range_periodic_witness :
    suggest_vp 2 3 13 = 13 % (2 * 3) ∧
    suggest_vp 2 3 13 < 2 * 3 ∧
    suggest_vp 2 3 (13 + 2 * 3) = suggest_vp 2 3 13 :=
  suggest_vp_mod_range_periodic 2 3 13 (by decide) (by decide)

/-- C6: for every id with recProcesses ≥ 1 and threads ≥ 1, `suggest_rec_vp`
returns simProcesses·threads + (id mod (recProcesses·threads)); the result
lies in [simProcesses·threads, totalVPs) with
totalVPs = simProcesses·threads + recProcesses·threads, and is periodic with
period recProcesses·threads. -/
theorem suggest_rec_vp_range_periodic (sim rec T gid : Nat)
    (hrec : 1 ≤ rec) (hT : 1 ≤ T) :
    suggest_rec_vp sim rec T gid = gid % (rec * T) + sim * T ∧
    sim * T ≤ suggest_rec_vp sim rec T gid ∧
    suggest_rec_vp sim rec T gid < sim * T + rec * T ∧
    suggest_rec_vp sim rec T (gid + rec * T) = suggest_rec_vp sim rec T gid := by
  refine ⟨rfl, Nat.le_add_left _ _, ?_, ?_⟩
  · have h := Nat.mod_lt gid (Nat.mul_pos hrec hT)
    unfold suggest_rec_vp
    omega
  · simp [suggest_rec_vp, Nat.add_mod_right]

theorem suggest_rec_vp_range_periodic_witness :
    suggest_rec_vp 2 1 3 7 = 7 ∧
    (suggest_rec_vp 2 1 3 7 = 7 % (1 * 3) + 2 * 3 ∧
     2 * 3 ≤ suggest_rec_vp 2 1 3 7 ∧
     suggest_rec_vp 2 1 3 7 < 2 * 3 + 1 * 3 ∧
     suggest_rec_vp 2 1 3 (7 + 1 * 3) = suggest_rec_vp 2 1 3 7) :=
  ⟨rfl, suggest_rec_vp_range_periodic 2 1 3 7 (by decide) (by decide)⟩

/-- C10: for every VP in the simulating range [0, simProcesses·threads) the
result of `vp_to_thread` is independent of the caller's rank — any two ranks
obtain the same thread, namely vp div simProcesses. -/
theorem vp_to_thread_sim_range_rank_oblivious (topo : Topology) (r1 r2 vp : Int)
    (h0 : 0 ≤ vp) (h : vp < topo.n_sim_procs * topo.n_threads) :
    vp_to_thread topo r1 vp = vp_to_thread topo r2 vp ∧
    vp_to_thread topo r1 vp = vp.tdiv topo.n_sim_procs := by
  unfold vp_to_thread
  rw [if_neg (not_le.mpr h), if_neg (not_le.mpr h)]
  exact ⟨rfl, rfl⟩

theorem vp_to_thread_sim_range_rank_oblivious_witness :
    vp_to_thread ⟨2, 1, 3⟩ 0 5 = vp_to_thread ⟨2, 1, 3⟩ 2 5 ∧
    vp_to_thread ⟨2, 1, 3⟩ 0 5 = Int.tdiv 5 2 :=
  vp_to_thread_sim_range_rank_oblivious ⟨2, 1, 3⟩ 0 2 5 (by decide) (by decide)

/-- C2: for every thread t in [0, threads) and caller rank in
[0, simProcesses + recProcesses) with simProcesses, recProcesses, threads
all ≥ 1, `vp_to_thread` inverts `thread_to_vp` at the same rank. -/
theorem vp_to_thread_thread_to_vp_roundtrip (sim rec T r t : Int)
    (hsim : 1 ≤ sim) (hrec : 1 ≤ rec) (hT : 1 ≤ T)
    (ht0 : 0 ≤ t) (ht : t < T) (hr0 : 0 ≤ r) (hr : r < sim + rec) :
    vp_to_thread ⟨sim, rec, T⟩ r (thread_to_vp ⟨sim, rec, T⟩ r t) = t := by
  unfold thread_to_vp vp_to_thread
  by_cases hcase : sim ≤ r
  · rw [if_pos hcase]
    have htr : (0 : Int) ≤ t * rec := mul_nonneg ht0 (by omega)
    rw [if_pos (by omega : sim * T ≤ t * rec + r - sim + sim * T)]
    have hnum : t * rec + r - sim + sim * T + sim * (1 - T) - r = t * rec := by ring
    rw [hnum, Int.mul_tdiv_cancel t (by omega : rec ≠ 0)]
  · rw [if_neg hcase]
    push_neg at hcase
    have hts : t * sim ≤ (T - 1) * sim :=
      mul_le_mul_of_nonneg_right (by omega) (by omega)
    have hlt : ¬ (sim * T ≤ t * sim + r) := by
      push_neg
      nlinarith
    rw [if_neg hlt]
    have hnn : (0 : Int) ≤ t * sim + r := by
      have : (0 : Int) ≤ t * sim := mul_nonneg ht0 (by omega)
      omega
    rw [Int.tdiv_eq_ediv hnn (by omega : (0 : Int) ≤ sim),
      show t * sim + r = r + t * sim by ring,
      Int.add_mul_ediv_right r t (by omega : sim ≠ 0),
      Int.ediv_eq_zero_of_lt hr0 hcase, zero_add]

theorem vp_to_thread_thread_to_vp_roundtrip_witness :
    vp_to_thread ⟨2, 1, 3⟩ 2 (thread_to_vp ⟨2, 1, 3⟩ 2 2) = 2 :=
  vp_to_thread_thread_to_vp_roundtrip 2 1 3 2 2 (by decide) (by decide)
    (by decide) (by decide) (by decide) (by decide) (by decide)

end NestVP

namespace NestVP

/-- When some locking condition holds, the throw cascade fires on a condition
that holds, with that condition's message. -/
theorem firstLockError_names_condition (net : NetworkSnapshot)
    (h : ∃ i, i < 7 ∧ lockCondition net i = true) :
    ∃ i, i < 7 ∧ lockCondition net i = true ∧
      firstLockError net = some (lockMessage i) := by
  obtain ⟨i, hi, hci⟩ := h
  by_cases h0 : 1 < net.size
  · exact ⟨0, by omega, by simp [lockCondition, h0], by simp [firstLockError, h0]⟩
  by_cases h1 : net.pristine_models_size < net.models_size
  · exact ⟨1, by omega, by simp [lockCondition, h1], by simp [firstLockError, h0, h1]⟩
  by_cases h2 : net.has_user_prototypes
  · exact ⟨2, by omega, by simp [lockCondition, h2], by simp [firstLockError, h0, h1, h2]⟩
  by_cases h3 : net.user_set_delay_extrema
  · exact ⟨3, by omega, by simp [lockCondition, h3],
      by simp [firstLockError, h0, h1, h2, h3]⟩
  by_cases h4 : net.simulated
  · exact ⟨4, by omega, by simp [lockCondition, h4],
      by simp [firstLockError, h0, h1, h2, h3, h4]⟩
  by_cases h5 : net.resolution_is_default
  · by_cases h6 : net.model_defaults_modified
    · exact ⟨6, by omega, by simp [lockCondition, h6],
        by simp [firstLockError, h0, h1, h2, h3, h4, h5, h6]⟩
    · exfalso
      interval_cases i <;> simp_all [lockCondition] <;> omega
  · exact ⟨5, by omega, by simp [lockCondition, h5],
      by simp [firstLockError, h0, h1, h2, h3, h4, h5]⟩

/-- C3: a `set_status` request carrying `local_num_threads` is rejected with a
`KernelException` naming a locking condition that holds whenever any of the
seven locking conditions holds, and the whole state (thread count, degraded
flag) is unchanged, with no diagnostics recorded. -/
theorem set_status_locked_rejects (net : NetworkSnapshot) (p n0 : Int)
    (d : StatusDict) (s : VPState) (hd : d.local_num_threads.isSome = true)
    (h : ∃ i, i < 7 ∧ lockCondition net i = true) :
    ∃ i, i < 7 ∧ lockCondition net i = true ∧
      set_status net p n0 d s =
        { state := s, msgs := [], error := some (.kernelException (lockMessage i)) } := by
  obtain ⟨i, hi, hci, hfl⟩ := firstLockError_names_condition net h
  obtain ⟨n, hn⟩ := Option.isSome_iff_exists.mp hd
  exact ⟨i, hi, hci, by simp [set_status, hn, hfl]⟩

theorem set_status_locked_rejects_witness :
    ∃ i, i < 7 ∧ lockCondition simulatedNet i = true ∧
      set_status simulatedNet 2 0 ⟨some 4, none⟩ ⟨false, 1⟩ =
        { state := ⟨false, 1⟩, msgs := [],
          error := some (.kernelException (lockMessage i)) } :=
  set_status_locked_rejects simulatedNet 2 0 ⟨some 4, none⟩ ⟨false, 1⟩
    (by decide) ⟨4, by decide, by decide⟩

/-- C4: a `set_status` request carrying only `total_num_virtual_procs`, with
no locking condition holding and a value that is not an exact multiple of the
process count, throws the distinct `BadProperty` error and mutates nothing. -/
theorem set_status_indivisible_vps_rejects (net : NetworkSnapshot)
    (p n0 v : Int) (s : VPState)
    (hlock : firstLockError net = none) (hv : v.tmod p ≠ 0) :
    set_status net p n0 ⟨none, some v⟩ s =
      { state := s, msgs := [], error := some (.badProperty vpsNotMultipleMsg) } := by
  simp [set_status, hlock, hv]

theorem set_status_indivisible_vps_rejects_witness :
    set_status pristineNet 3 0 ⟨none, some 10⟩ ⟨false, 1⟩ =
      { state := ⟨false, 1⟩, msgs := [],
        error := some (.badProperty vpsNotMultipleMsg) } :=
  set_status_indivisible_vps_rejects pristineNet 3 0 10 ⟨false, 1⟩
    (by decide) (by decide)

/-- C7: with the degraded flag set and no locking condition holding, a
`set_status` request for 8 local threads is accepted (no exception), the
committed thread count is 1, and exactly the non-fatal no-multithreading
warning is recorded. -/
theorem set_status_degraded_commits_one (net : NetworkSnapshot) (p n0 : Int)
    (s : VPState) (hlock : firstLockError net = none)
    (hf : s.force_singlethreading = true) :
    set_status net p n0 ⟨some 8, none⟩ s =
      { state := { force_singlethreading := false, n_threads := 1 }
        msgs := [noMultithreadingWarning]
        error := none } := by
  simp [set_status, hlock, hf, reset, set_num_threads]

theorem set_status_degraded_commits_one_witness :
    set_status pristineNet 2 0 ⟨some 8, none⟩ ⟨true, 1⟩ =
      { state := { force_singlethreading := false, n_threads := 1 }
        msgs := [noMultithreadingWarning]
        error := none } :=
  set_status_degraded_commits_one pristineNet 2 0 ⟨true, 1⟩ (by decide) (by decide)

/-- C1 (failing evaluation): with no locking condition holding, 2 processes
and a pristine manager, a `set_status` request for 4 local threads is
accepted, yet `get_status` afterwards reports local_num_threads = 1 and
total_num_virtual_procs = 2 — not 4 and 8 as the claim states — because
line 96 calls `VPManager::reset`, which overwrites the just-assigned thread
count with 1. -/
theorem set_status_four_threads_commits_one :
    (set_status pristineNet 2 0 ⟨some 4, none⟩ ⟨false, 1⟩).error = none ∧
    get_status 2 (set_status pristineNet 2 0 ⟨some 4, none⟩ ⟨false, 1⟩).state =
      (1, 2) := by decide

/-- C8 (failing evaluation): with the degraded flag set, no locking condition
holding and 2 processes, a `set_status` request carrying only
total_num_virtual_procs = 8 derives a thread count of 4 (> 1), yet commits 4
with no warning: the clamp on line 130 tests the stale local variable
`n_threads` of the local_num_threads path (uninitialized here, modelled as 0)
instead of the freshly derived `n_threads_`. -/
theorem set_status_vps_degraded_clamp_misses :
    set_status pristineNet 2 0 ⟨none, some 8⟩ ⟨true, 1⟩ =
      { state := { force_singlethreading := true, n_threads := 4 }
        msgs := []
        error := none } := by decide

/-- C9 (failing evaluation): an accepted `set_status` thread-count change
clears a degraded flag that was set beforehand, because line 96 calls
`VPManager::reset`, which resets `force_singlethreading_` to false — the flag
is not preserved across accepted topology changes. -/
theorem set_status_accepted_clears_degraded_flag :
    (set_status pristineNet 2 0 ⟨some 1, none⟩ ⟨true, 1⟩).error = none ∧
    (set_status pristineNet 2 0 ⟨some 1, none⟩ ⟨true, 1⟩).state.force_singlethreading
      = false := by decide

end NestVP
